import Mathlib

/-!
Verification of the selection-state synchronization core of the
StudyMaterialDownloadable dialog prototypes.

Each dialog presents a list of labels; every row holds an exclusive
radio-button group with id 0 ("GUI") and id 1 ("Custom"), and
`checkedId` returns -1 while no button of the group is checked.  The
per-row state is embedded as the enumeration `Choice` below, and each
prototype's handlers are embedded as pure functions over explicit
state records.
-/

/-- Per-row selection state of one radio-button group: no button
checked, the "GUI" button (id 0) checked, or the "Custom" button
(id 1) checked. -/
inductive Choice where
  | unset
  | optionA
  | optionB
deriving DecidableEq

/-- Embeds `QButtonGroup.checkedId` as used by the prototypes: -1 when
nothing is selected, 0 for the GUI button, 1 for the Custom button. -/
def checkedId : Choice → Int
  | Choice.unset => -1
  | Choice.optionA => 0
  | Choice.optionB => 1

/-- The row list built by every prototype's constructor: one
`(string_item, button_group)` pair per input label, in input order,
with no button initially checked. -/
def initRows (labels : List String) : List (String × Choice) :=
  labels.map (fun l => (l, Choice.unset))

/-- Embeds the `unselected_items` loop of the validating `on_ok_clicked`
handlers (`design_dynamic_custom_table.py`,
`design_dynamic_custom_table_3.py`, `select_all_custom_code_box.py`,
`Custom_checkbox_2.py`, `string_popup_dynamic_widget.py`): collect, in
row order, the labels whose group has `checkedId() == -1`. -/
def unselected_items : List (String × Choice) → List String
  | [] => []
  | (l, c) :: rest =>
      if checkedId c == -1 then l :: unselected_items rest
      else unselected_items rest

/-- Embeds `get_result`, identical in all prototypes: pair each label
with the string `"GUI"` when the row's `checkedId()` is 0 and with
`"Custom"` in every other case. -/
def get_result : List (String × Choice) → List (String × String)
  | [] => []
  | (l, c) :: rest =>
      (l, if checkedId c == 0 then "GUI" else "Custom") :: get_result rest

/-- Embeds the outcome of the validating `on_ok_clicked` handlers: if
any row is unselected the handler warns and returns (a validation
failure carrying the computed `unselected_items` list), otherwise it
emits `get_result`. -/
def on_ok_outcome (rows : List (String × Choice)) :
    Except (List String) (List (String × String)) :=
  let u := unselected_items rows
  if u.isEmpty then Except.ok (get_result rows) else Except.error u

/-- Lifecycle phase of one dialog instance: `editing` until a
successful OK click, after which the dialog closes (`committed`). -/
inductive Phase where
  | editing
  | committed
deriving DecidableEq

/-- A dialog instance for the validating variants: its rows plus its
lifecycle phase. -/
structure GateState where
  rows : List (String × Choice)
  phase : Phase

/-- Embeds the validating `on_ok_clicked` as a step on the dialog
instance: on failure the handler shows a warning and returns early
(state untouched, dialog stays open); on success it emits the result
and calls `self.close()`. -/
def on_ok_step (s : GateState) : GateState × Except (List String) (List (String × String)) :=
  let u := unselected_items s.rows
  if u.isEmpty then
    ({ s with phase := Phase.committed }, Except.ok (get_result s.rows))
  else
    (s, Except.error u)

/-- Embeds Python's `", ".join(items)` used by
`design_dynamic_custom_table_3.on_ok_clicked`. -/
def join_comma : List String → String
  | [] => ""
  | [x] => x
  | x :: xs => x ++ ", " ++ join_comma xs

/-- Warning text shown by `Custom_checkbox_2.on_ok_clicked` (and,
identically, by `select_all_custom_code_box.py`,
`design_dynamic_custom_table.py` and
`string_popup_dynamic_widget.py`): a fixed sentence that does not
mention the unselected items. -/
def checkbox2_warning_text (_unselected : List String) : String :=
  "Please select all options before proceeding."

/-- Warning text shown by `design_dynamic_custom_table_3.on_ok_clicked`:
`f"Please select options for: {items_text}"` with
`items_text = ", ".join(unselected_items)`. -/
def table3_warning_text (unselected : List String) : String :=
  "Please select options for: " ++ join_comma unselected

/-- Character-list test: `needle` begins `hay`. -/
def pref_at : List Char → List Char → Bool
  | [], _ => true
  | _ :: _, [] => false
  | a :: as, b :: bs => a == b && pref_at as bs

/-- Character-list test: `needle` occurs contiguously inside `hay`. -/
def sub_at (needle : List Char) : List Char → Bool
  | [] => pref_at needle []
  | b :: bs => pref_at needle (b :: bs) || sub_at needle bs

/-- Row transformation performed by one iteration of the
`clear_all_selections` loops (`Custom_checkbox_2.py`,
`select_all_custom_code_box.py`): if the row's group has a checked
button, uncheck it; otherwise leave the row alone. -/
def clearRow (r : String × Choice) : String × Choice :=
  if checkedId r.2 == -1 then r else (r.1, Choice.unset)

/-- Row transformation performed by one iteration of the select-all
loops: `button_group.button(id).setChecked(True)` makes `c` the row's
checked button (radio exclusivity unchecks the other button). -/
def set_row (c : Choice) (r : String × Choice) : String × Choice :=
  (r.1, c)

namespace CustomCheckbox2

/-- State of one `Custom_checkbox_2.DynamicStringWidget` instance: the
per-row groups, the two header checkboxes, and the
`updating_checkboxes` re-entrancy guard flag. -/
structure CbState where
  rows : List (String × Choice)
  guiBox : Bool
  customBox : Bool
  updating : Bool

/-- Widget state right after `setup_ui`: every group unchecked, both
header checkboxes unchecked, guard flag down. -/
def initState (labels : List String) : CbState :=
  { rows := initRows labels
    guiBox := false
    customBox := false
    updating := false }

/-- Embeds `sum(1 for _, bg in self.button_groups if bg.checkedId() == 0)`. -/
def gui_count (rows : List (String × Choice)) : Nat :=
  rows.countP (fun r => checkedId r.2 == 0)

/-- Embeds `sum(1 for _, bg in self.button_groups if bg.checkedId() == 1)`. -/
def custom_count (rows : List (String × Choice)) : Nat :=
  rows.countP (fun r => checkedId r.2 == 1)

/-- Embeds `update_checkbox_states_from_radios`: bail out when the
guard flag is up; otherwise raise the flag, set each header checkbox
to "all rows select my column", and lower the flag. -/
def update_checkbox_states_from_radios (s : CbState) : CbState :=
  if s.updating then s
  else
    let s1 := { s with updating := true }
    let total := s1.rows.length
    let s2 := { s1 with
      guiBox := gui_count s1.rows == total
      customBox := custom_count s1.rows == total }
    { s2 with updating := false }

/-- Embeds `on_radio_button_changed`, the slot connected to every
radio button's `toggled` signal: suppressed while the guard flag is
up, otherwise recompute both header checkboxes. -/
def on_radio_button_changed (s : CbState) : CbState :=
  if s.updating then s else update_checkbox_states_from_radios s

/-- Applies `g` to the row at index `k` (other rows untouched). -/
def applyAt (g : String × Choice → String × Choice) :
    List (String × Choice) → Nat → List (String × Choice)
  | [], _ => []
  | r :: rest, 0 => g r :: rest
  | r :: rest, k + 1 => r :: applyAt g rest k

/-- Embeds the per-row loops of the header-checkbox handlers: for `n`
rows starting at index `k`, rewrite the row with `g`
(a `setChecked` call), upon which Qt synchronously emits `toggled`
and runs `on_radio_button_changed` before the loop continues. -/
def row_loop (g : String × Choice → String × Choice) :
    CbState → Nat → Nat → CbState
  | s, _, 0 => s
  | s, k, n + 1 =>
      row_loop g (on_radio_button_changed { s with rows := applyAt g s.rows k })
        (k + 1) n

/-- Embeds `on_gui_checkbox_clicked`, run after Qt has already
toggled the checkbox: guard, then either check every GUI radio and
uncheck the Custom header box, or clear every selection; the Custom
header box is written with `setChecked`, which emits no `clicked`
signal, so no handler runs for it. -/
def on_gui_checkbox_clicked (s : CbState) : CbState :=
  if s.updating then s
  else
    let s1 := { s with updating := true }
    let s2 :=
      if s1.guiBox then
        let t := row_loop (set_row Choice.optionA) s1 0 s1.rows.length
        { t with customBox := false }
      else
        row_loop clearRow s1 0 s1.rows.length
    { s2 with updating := false }

/-- Embeds `on_custom_checkbox_clicked`, mirror image of
`on_gui_checkbox_clicked`. -/
def on_custom_checkbox_clicked (s : CbState) : CbState :=
  if s.updating then s
  else
    let s1 := { s with updating := true }
    let s2 :=
      if s1.customBox then
        let t := row_loop (set_row Choice.optionB) s1 0 s1.rows.length
        { t with guiBox := false }
      else
        row_loop clearRow s1 0 s1.rows.length
    { s2 with updating := false }

/-- A user click on the GUI header checkbox: Qt first toggles the
checkbox's state, then emits `clicked`, which runs the handler. -/
def click_gui_checkbox (s : CbState) : CbState :=
  on_gui_checkbox_clicked { s with guiBox := !s.guiBox }

/-- A user click on the Custom header checkbox. -/
def click_custom_checkbox (s : CbState) : CbState :=
  on_custom_checkbox_clicked { s with customBox := !s.customBox }

/-- A user click on radio button `c` of row `i`: the group's checked
id changes and the radios' `toggled` signals run
`on_radio_button_changed` (Qt may emit `toggled` once or twice per
click; the slot is a deterministic recompute, so one invocation gives
the handlers' net effect). -/
def click_radio (i : Nat) (c : Choice) (s : CbState) : CbState :=
  on_radio_button_changed { s with rows := applyAt (set_row c) s.rows i }

/-- Modelled from the spec: `clearAll()` "sets every Item's `choice`
to `Unset` and both MasterControls to `Off`"; the repository only
exposes the row part as the internal helper `clear_all_selections`,
so the master-control resets follow the spec's words.  Between user
gestures the guard flag is down. -/
def clear_all (s : CbState) : CbState :=
  { rows := s.rows.map clearRow
    guiBox := false
    customBox := false
    updating := false }

/-- External stimuli of the checkbox-variant synchronizer. -/
inductive Op where
  | toggle (i : Nat) (c : Choice)
  | clickGui
  | clickCustom
  | clearAll

/-- Effect of one stimulus on the widget state. -/
def applyOp : Op → CbState → CbState
  | Op.toggle i c, s => click_radio i c s
  | Op.clickGui, s => click_gui_checkbox s
  | Op.clickCustom, s => click_custom_checkbox s
  | Op.clearAll, s => clear_all s

/-- A stimulus the rendering layer can actually deliver: a row click
names an existing row and checks one of the two radio buttons (a
click cannot uncheck both). -/
def ValidOp : Op → CbState → Prop
  | Op.toggle i c, s => i < s.rows.length ∧ c ≠ Choice.unset
  | Op.clickGui, _ => True
  | Op.clickCustom, _ => True
  | Op.clearAll, _ => True

/-- States of the checkbox-variant widget reachable from its initial
state by valid user gestures. -/
inductive Reachable (labels : List String) : CbState → Prop where
  | init : Reachable labels (initState labels)
  | step {s : CbState} (op : Op) :
      Reachable labels s → ValidOp op s → Reachable labels (applyOp op s)

end CustomCheckbox2

namespace SelectAllBox

/-- Embeds `are_all_gui_selected` of `select_all_custom_code_box.py`:
`all(bg.checkedId() == 0 for _, bg in self.button_groups)`. -/
def are_all_gui_selected (rows : List (String × Choice)) : Bool :=
  rows.all (fun r => checkedId r.2 == 0)

/-- Embeds `are_all_custom_selected` of `select_all_custom_code_box.py`. -/
def are_all_custom_selected (rows : List (String × Choice)) : Bool :=
  rows.all (fun r => checkedId r.2 == 1)

/-- Embeds `clear_all_selections` of `select_all_custom_code_box.py`
(no radio in this prototype is connected to a slot, so the loop has
no side effects beyond the rows). -/
def clear_all_selections (rows : List (String × Choice)) : List (String × Choice) :=
  rows.map clearRow

/-- Embeds the select-all loops of `select_all_custom_code_box.py`:
check button `c` in every row's group. -/
def select_rows (c : Choice) (rows : List (String × Choice)) : List (String × Choice) :=
  rows.map (set_row c)

/-- Embeds `select_all_gui`: deselect everything when every row is
already GUI, otherwise check every GUI radio. -/
def select_all_gui (rows : List (String × Choice)) : List (String × Choice) :=
  if are_all_gui_selected rows then clear_all_selections rows
  else select_rows Choice.optionA rows

/-- Embeds `select_all_custom`, the mirror image of `select_all_gui`. -/
def select_all_custom (rows : List (String × Choice)) : List (String × Choice) :=
  if are_all_custom_selected rows then clear_all_selections rows
  else select_rows Choice.optionB rows

end SelectAllBox

namespace StringPopup

/-- State of one `string_popup_dynamic_widget.DynamicStringWidget`
instance: the per-row groups and the two header checkboxes (this
prototype has no guard flag and connects no radio signals). -/
structure PopState where
  rows : List (String × Choice)
  guiBox : Bool
  customBox : Bool

/-- Widget state right after `setup_ui`, which is also the state
`clearAll()` produces: every group unchecked, both header checkboxes
unchecked. -/
def clear_state (labels : List String) : PopState :=
  { rows := initRows labels
    guiBox := false
    customBox := false }

/-- Embeds `on_gui_checkbox_clicked` of
`string_popup_dynamic_widget.py`, run after Qt toggled the checkbox:
checking selects every GUI radio and unchecks the Custom header box;
unchecking auto-selects every Custom radio and checks the Custom
header box. -/
def on_gui_checkbox_clicked (s : PopState) : PopState :=
  if s.guiBox then
    { s with rows := s.rows.map (set_row Choice.optionA), customBox := false }
  else
    { s with rows := s.rows.map (set_row Choice.optionB), customBox := true }

/-- Embeds `on_custom_checkbox_clicked` of
`string_popup_dynamic_widget.py`. -/
def on_custom_checkbox_clicked (s : PopState) : PopState :=
  if s.customBox then
    { s with rows := s.rows.map (set_row Choice.optionB), guiBox := false }
  else
    { s with rows := s.rows.map (set_row Choice.optionA), guiBox := true }

/-- A user click on the GUI header checkbox: Qt toggles the box,
then the handler runs. -/
def click_gui_checkbox (s : PopState) : PopState :=
  on_gui_checkbox_clicked { s with guiBox := !s.guiBox }

/-- A user click on the Custom header checkbox. -/
def click_custom_checkbox (s : PopState) : PopState :=
  on_custom_checkbox_clicked { s with customBox := !s.customBox }

/-- A user click on radio button `c` of row `i` (no slot is connected
to the radios in this prototype, so only the row changes). -/
def click_radio (i : Nat) (c : Choice) (s : PopState) : PopState :=
  { s with rows := CustomCheckbox2.applyAt (set_row c) s.rows i }

/-- Modelled from the spec: `clearAll()` "sets every Item's `choice`
to `Unset` and both MasterControls to `Off`" (this prototype has no
clear helper of its own). -/
def clear_all (s : PopState) : PopState :=
  { rows := s.rows.map clearRow
    guiBox := false
    customBox := false }

/-- External stimuli of the toggle-to-flip checkbox variant. -/
inductive Op where
  | toggle (i : Nat) (c : Choice)
  | clickGui
  | clickCustom
  | clearAll

/-- Effect of one stimulus on the widget state. -/
def applyOp : Op → PopState → PopState
  | Op.toggle i c, s => click_radio i c s
  | Op.clickGui, s => click_gui_checkbox s
  | Op.clickCustom, s => click_custom_checkbox s
  | Op.clearAll, s => clear_all s

/-- A stimulus the rendering layer can actually deliver. -/
def ValidOp : Op → PopState → Prop
  | Op.toggle i c, s => i < s.rows.length ∧ c ≠ Choice.unset
  | Op.clickGui, _ => True
  | Op.clickCustom, _ => True
  | Op.clearAll, _ => True

/-- States of the toggle-to-flip widget reachable from its initial
state by valid user gestures. -/
inductive Reachable (labels : List String) : PopState → Prop where
  | init : Reachable labels (clear_state labels)
  | step {s : PopState} (op : Op) :
      Reachable labels s → ValidOp op s → Reachable labels (applyOp op s)

end StringPopup

namespace PlainWidget

/-- Embeds `dynamic_string_widget.on_ok_clicked`, which performs no
validation: it emits `get_result` for whatever the rows hold. -/
def on_ok_result (rows : List (String × Choice)) : List (String × String) :=
  get_result rows

end PlainWidget

namespace TableWidget

/-- One `toggleItem` gesture of `design_dynamic_custom_table.py`
(no radio there is connected to a slot): check button `op.2` in the
group at index `op.1`. -/
def apply_toggle (rows : List (String × Choice)) (op : Nat × Choice) :
    List (String × Choice) :=
  CustomCheckbox2.applyAt (set_row op.2) rows op.1

/-- A sequence of `toggleItem` gestures applied in order. -/
def apply_toggles (ops : List (Nat × Choice)) (rows : List (String × Choice)) :
    List (String × Choice) :=
  ops.foldl apply_toggle rows

/-- First entry of `ops` that targets row `i`, if any. -/
def first_set (i : Nat) : List (Nat × Choice) → Option Choice
  | [] => none
  | op :: rest => if op.1 == i then some op.2 else first_set i rest

/-- Last entry of `ops` that targets row `i`, if any: the choice the
row holds after the whole sequence ran. -/
def last_set (i : Nat) (ops : List (Nat × Choice)) : Option Choice :=
  first_set i ops.reverse

/-- The result list the spec promises for a completed dialog: the
labels in input order, each paired with the rendering of its last-set
choice. -/
def expected_from (ops : List (Nat × Choice)) : Nat → List String → List (String × String)
  | _, [] => []
  | i, l :: rest =>
      (l, if last_set i ops = some Choice.optionA then "GUI" else "Custom") ::
        expected_from ops (i + 1) rest

/-- The expected successful-commit output for input `labels` after
the gestures `ops`. -/
def expected_result (labels : List String) (ops : List (Nat × Choice)) :
    List (String × String) :=
  expected_from ops 0 labels

end TableWidget

namespace CustomCheckbox2

/-- Pure rewrite of `n` rows starting at index `k` with `g`, with no
signal handling: the single coherent bulk update a header-checkbox
gesture is meant to perform. -/
def applyRange (g : String × Choice → String × Choice) :
    List (String × Choice) → Nat → Nat → List (String × Choice)
  | rows, _, 0 => rows
  | rows, k, n + 1 => applyRange g (applyAt g rows k) (k + 1) n

/-- `on_gui_checkbox_clicked` with the nested
`on_radio_button_changed` invocations removed: one bulk row rewrite,
no re-entrant synchronizer operation. -/
def on_gui_checkbox_clicked_direct (s : CbState) : CbState :=
  if s.updating then s
  else
    let s1 := { s with updating := true }
    let s2 :=
      if s1.guiBox then
        let t := { s1 with
          rows := applyRange (set_row Choice.optionA) s1.rows 0 s1.rows.length }
        { t with customBox := false }
      else
        { s1 with rows := applyRange clearRow s1.rows 0 s1.rows.length }
    { s2 with updating := false }

/-- `on_custom_checkbox_clicked` with the nested
`on_radio_button_changed` invocations removed. -/
def on_custom_checkbox_clicked_direct (s : CbState) : CbState :=
  if s.updating then s
  else
    let s1 := { s with updating := true }
    let s2 :=
      if s1.customBox then
        let t := { s1 with
          rows := applyRange (set_row Choice.optionB) s1.rows 0 s1.rows.length }
        { t with guiBox := false }
      else
        { s1 with rows := applyRange clearRow s1.rows 0 s1.rows.length }
    { s2 with updating := false }

/-- A GUI header-checkbox click whose handler performs a single
non-re-entrant transition. -/
def click_gui_direct (s : CbState) : CbState :=
  on_gui_checkbox_clicked_direct { s with guiBox := !s.guiBox }

/-- A Custom header-checkbox click whose handler performs a single
non-re-entrant transition. -/
def click_custom_direct (s : CbState) : CbState :=
  on_custom_checkbox_clicked_direct { s with customBox := !s.customBox }

end CustomCheckbox2

section RowLemmas

theorem checkedId_beq_neg_one (c : Choice) :
    (checkedId c == -1) = (c == Choice.unset) := by
  cases c <;> rfl

theorem checkedId_beq_zero (c : Choice) :
    (checkedId c == 0) = (c == Choice.optionA) := by
  cases c <;> rfl

theorem checkedId_beq_one (c : Choice) :
    (checkedId c == 1) = (c == Choice.optionB) := by
  cases c <;> rfl

theorem clearRow_fst (r : String × Choice) : (clearRow r).1 = r.1 := by
  obtain ⟨l, c⟩ := r
  cases c <;> rfl

theorem clearRow_snd (r : String × Choice) : (clearRow r).2 = Choice.unset := by
  obtain ⟨l, c⟩ := r
  cases c <;> rfl

theorem unselected_items_of_all_unset (rows : List (String × Choice))
    (h : ∀ r ∈ rows, r.2 = Choice.unset) :
    unselected_items rows = rows.map Prod.fst := by
  induction rows with
  | nil => rfl
  | cons r rest ih =>
      obtain ⟨l, c⟩ := r
      have hc : c = Choice.unset := h (l, c) (List.mem_cons_self _ _)
      subst hc
      simp only [unselected_items, checkedId, List.map_cons]
      rw [if_pos (by rfl)]
      exact congrArg _ (ih fun r hr => h r (List.mem_cons_of_mem _ hr))

theorem unselected_items_eq_nil (rows : List (String × Choice))
    (h : ∀ r ∈ rows, r.2 ≠ Choice.unset) :
    unselected_items rows = [] := by
  induction rows with
  | nil => rfl
  | cons r rest ih =>
      obtain ⟨l, c⟩ := r
      have hc : c ≠ Choice.unset := h (l, c) (List.mem_cons_self _ _)
      have hrest := ih fun r hr => h r (List.mem_cons_of_mem _ hr)
      simp only [unselected_items, checkedId_beq_neg_one]
      rw [if_neg (by simpa using hc)]
      exact hrest

theorem unselected_items_ne_nil (rows : List (String × Choice))
    (r : String × Choice) (hr : r ∈ rows) (hc : r.2 = Choice.unset) :
    unselected_items rows ≠ [] := by
  induction rows with
  | nil => cases hr
  | cons r0 rest ih =>
      obtain ⟨l0, c0⟩ := r0
      by_cases h0 : c0 = Choice.unset
      · subst h0
        simp [unselected_items, checkedId]
      · simp only [unselected_items, checkedId_beq_neg_one]
        rw [if_neg (by simpa using h0)]
        rcases List.mem_cons.mp hr with heq | hmem
        · exfalso
          apply h0
          have : r.2 = c0 := by rw [heq]
          rw [← this, hc]
        · exact ih hmem

theorem get_result_eq_map (rows : List (String × Choice)) :
    get_result rows =
      rows.map (fun r => (r.1, if checkedId r.2 == 0 then "GUI" else "Custom")) := by
  induction rows with
  | nil => rfl
  | cons r rest ih =>
      obtain ⟨l, c⟩ := r
      simp only [get_result, List.map_cons, ih]

theorem mem_of_getElem?_some {α : Type} (l : List α) (i : Nat) (x : α)
    (h : l[i]? = some x) : x ∈ l := by
  have h' := List.getElem?_eq_some.mp h
  obtain ⟨hlt, hget⟩ := h'
  exact hget ▸ List.getElem_mem hlt

theorem exists_getElem?_of_mem {α : Type} (l : List α) (x : α) (h : x ∈ l) :
    ∃ i : Nat, l[i]? = some x := by
  obtain ⟨i, hlt, hi⟩ := List.getElem_of_mem h
  exact ⟨i, List.getElem?_eq_some.mpr ⟨hlt, hi⟩⟩

theorem lt_length_of_getElem?_some {α : Type} (l : List α) (i : Nat) (x : α)
    (h : l[i]? = some x) : i < l.length :=
  (List.getElem?_eq_some.mp h).1

end RowLemmas

namespace CustomCheckbox2

theorem applyAt_length (g : String × Choice → String × Choice) :
    ∀ (rows : List (String × Choice)) (k : Nat),
      (applyAt g rows k).length = rows.length := by
  intro rows
  induction rows with
  | nil => intro k; rfl
  | cons r rest ih =>
      intro k
      cases k with
      | zero => rfl
      | succ k => simp [applyAt, ih k]

theorem applyAt_map_fst (g : String × Choice → String × Choice)
    (hg : ∀ r, (g r).1 = r.1) :
    ∀ (rows : List (String × Choice)) (k : Nat),
      (applyAt g rows k).map Prod.fst = rows.map Prod.fst := by
  intro rows
  induction rows with
  | nil => intro k; rfl
  | cons r rest ih =>
      intro k
      cases k with
      | zero => simp [applyAt, hg r]
      | succ k => simp [applyAt, ih k]

theorem on_radio_suppressed (s : CbState) (h : s.updating = true) :
    on_radio_button_changed s = s := by
  unfold on_radio_button_changed
  rw [if_pos h]

theorem update_eq (s : CbState) (h : s.updating = false) :
    update_checkbox_states_from_radios s =
      { s with
        guiBox := gui_count s.rows == s.rows.length
        customBox := custom_count s.rows == s.rows.length
        updating := false } := by
  unfold update_checkbox_states_from_radios
  rw [if_neg (by simp [h])]

theorem on_radio_eq (s : CbState) (h : s.updating = false) :
    on_radio_button_changed s =
      { s with
        guiBox := gui_count s.rows == s.rows.length
        customBox := custom_count s.rows == s.rows.length
        updating := false } := by
  unfold on_radio_button_changed
  rw [if_neg (by simp [h]), update_eq s h]

theorem row_loop_guarded (g : String × Choice → String × Choice) :
    ∀ (n k : Nat) (s : CbState), s.updating = true →
      row_loop g s k n = { s with rows := applyRange g s.rows k n } := by
  intro n
  induction n with
  | zero => intro k s _; rfl
  | succ n ih =>
      intro k s h
      have hsup : on_radio_button_changed { s with rows := applyAt g s.rows k } =
          { s with rows := applyAt g s.rows k } :=
        on_radio_suppressed _ (by simpa using h)
      show row_loop g (on_radio_button_changed { s with rows := applyAt g s.rows k })
          (k + 1) n = _
      rw [hsup, ih (k + 1) _ (by simpa using h)]
      rfl

theorem applyRange_cons (g : String × Choice → String × Choice) :
    ∀ (n : Nat) (x : String × Choice) (t : List (String × Choice)) (k : Nat),
      applyRange g (x :: t) (k + 1) n = x :: applyRange g t k n := by
  intro n
  induction n with
  | zero => intro x t k; rfl
  | succ n ih =>
      intro x t k
      show applyRange g (applyAt g (x :: t) (k + 1)) (k + 2) n = _
      have : applyAt g (x :: t) (k + 1) = x :: applyAt g t k := rfl
      rw [this, ih]
      rfl

theorem applyRange_full (g : String × Choice → String × Choice) :
    ∀ rows : List (String × Choice),
      applyRange g rows 0 rows.length = rows.map g := by
  intro rows
  induction rows with
  | nil => rfl
  | cons r t ih =>
      show applyRange g (applyAt g (r :: t) 0) 1 t.length = g r :: t.map g
      have h0 : applyAt g (r :: t) 0 = g r :: t := rfl
      rw [h0, applyRange_cons g t.length (g r) t 0, ih]

theorem click_gui_eq (s : CbState) (h : s.updating = false) :
    click_gui_checkbox s =
      if s.guiBox then
        { s with rows := s.rows.map clearRow, guiBox := false, updating := false }
      else
        { s with rows := s.rows.map (set_row Choice.optionA), guiBox := true,
                 customBox := false, updating := false } := by
  obtain ⟨rows, gui, custom, upd⟩ := s
  simp only at h
  subst h
  cases gui with
  | false =>
      show click_gui_checkbox ⟨rows, false, custom, false⟩ = _
      unfold click_gui_checkbox on_gui_checkbox_clicked
      simp only [Bool.not_false, if_neg Bool.false_ne_true, if_pos rfl]
      rw [row_loop_guarded (set_row Choice.optionA) rows.length 0
        ⟨rows, true, custom, true⟩ rfl]
      show ({ rows := applyRange (set_row Choice.optionA) rows 0 rows.length,
              guiBox := true, customBox := false, updating := false } : CbState) = _
      rw [applyRange_full]
  | true =>
      show click_gui_checkbox ⟨rows, true, custom, false⟩ = _
      unfold click_gui_checkbox on_gui_checkbox_clicked
      simp only [Bool.not_true, if_neg Bool.false_ne_true, if_pos rfl]
      rw [row_loop_guarded clearRow rows.length 0 ⟨rows, false, custom, true⟩ rfl]
      show ({ rows := applyRange clearRow rows 0 rows.length,
              guiBox := false, customBox := custom, updating := false } : CbState) = _
      rw [applyRange_full]
      simp

theorem click_custom_eq (s : CbState) (h : s.updating = false) :
    click_custom_checkbox s =
      if s.customBox then
        { s with rows := s.rows.map clearRow, customBox := false, updating := false }
      else
        { s with rows := s.rows.map (set_row Choice.optionB), customBox := true,
                 guiBox := false, updating := false } := by
  obtain ⟨rows, gui, custom, upd⟩ := s
  simp only at h
  subst h
  cases custom with
  | false =>
      show click_custom_checkbox ⟨rows, gui, false, false⟩ = _
      unfold click_custom_checkbox on_custom_checkbox_clicked
      simp only [Bool.not_false, if_neg Bool.false_ne_true, if_pos rfl]
      rw [row_loop_guarded (set_row Choice.optionB) rows.length 0
        ⟨rows, gui, true, true⟩ rfl]
      show ({ rows := applyRange (set_row Choice.optionB) rows 0 rows.length,
              guiBox := false, customBox := true, updating := false } : CbState) = _
      rw [applyRange_full]
  | true =>
      show click_custom_checkbox ⟨rows, gui, true, false⟩ = _
      unfold click_custom_checkbox on_custom_checkbox_clicked
      simp only [Bool.not_true, if_neg Bool.false_ne_true, if_pos rfl]
      rw [row_loop_guarded clearRow rows.length 0 ⟨rows, gui, false, true⟩ rfl]
      show ({ rows := applyRange clearRow rows 0 rows.length,
              guiBox := gui, customBox := false, updating := false } : CbState) = _
      rw [applyRange_full]
      simp

theorem click_radio_eq (i : Nat) (c : Choice) (s : CbState) (h : s.updating = false) :
    click_radio i c s =
      { s with
        rows := applyAt (set_row c) s.rows i
        guiBox := gui_count (applyAt (set_row c) s.rows i) ==
          (applyAt (set_row c) s.rows i).length
        customBox := custom_count (applyAt (set_row c) s.rows i) ==
          (applyAt (set_row c) s.rows i).length
        updating := false } := by
  unfold click_radio
  rw [on_radio_eq _ (by simpa using h)]

end CustomCheckbox2

namespace CustomCheckbox2

theorem gui_count_beq_all (rows : List (String × Choice)) :
    (gui_count rows == rows.length) = rows.all (fun r => r.2 == Choice.optionA) := by
  rw [Bool.eq_iff_iff, beq_iff_eq, List.all_eq_true]
  unfold gui_count
  rw [List.countP_eq_length]
  constructor
  · intro h r hr
    rw [← checkedId_beq_zero]
    exact h r hr
  · intro h r hr
    rw [checkedId_beq_zero]
    exact h r hr

theorem custom_count_beq_all (rows : List (String × Choice)) :
    (custom_count rows == rows.length) = rows.all (fun r => r.2 == Choice.optionB) := by
  rw [Bool.eq_iff_iff, beq_iff_eq, List.all_eq_true]
  unfold custom_count
  rw [List.countP_eq_length]
  constructor
  · intro h r hr
    rw [← checkedId_beq_one]
    exact h r hr
  · intro h r hr
    rw [checkedId_beq_one]
    exact h r hr

theorem not_all_A_and_all_B (rows : List (String × Choice)) (h : rows ≠ []) :
    (rows.all (fun r => r.2 == Choice.optionA) &&
      rows.all (fun r => r.2 == Choice.optionB)) = false := by
  cases rows with
  | nil => exact absurd rfl h
  | cons r t =>
      obtain ⟨l, c⟩ := r
      cases c <;> simp [List.all_cons]

theorem cb_reach_invariant {labels : List String} {s : CbState}
    (h : Reachable labels s) :
    s.updating = false ∧ (s.guiBox && s.customBox) = false := by
  induction h with
  | init => exact ⟨rfl, rfl⟩
  | @step s' op hre hvalid ih =>
      obtain ⟨hupd, hexcl⟩ := ih
      cases op with
      | toggle i c =>
          obtain ⟨hi, hc⟩ := hvalid
          simp only [applyOp]
          rw [click_radio_eq i c s' hupd]
          refine ⟨rfl, ?_⟩
          show ((gui_count _ == _) && (custom_count _ == _)) = false
          rw [gui_count_beq_all, custom_count_beq_all]
          apply not_all_A_and_all_B
          intro hnil
          have hlen := applyAt_length (set_row c) s'.rows i
          rw [hnil] at hlen
          simp only [List.length_nil] at hlen
          omega
      | clickGui =>
          simp only [applyOp]
          rw [click_gui_eq s' hupd]
          cases hgb : s'.guiBox <;> simp [hgb]
      | clickCustom =>
          simp only [applyOp]
          rw [click_custom_eq s' hupd]
          cases hgb : s'.customBox <;> simp [hgb]
      | clearAll => exact ⟨rfl, rfl⟩

end CustomCheckbox2

theorem choice_beq_refl (c : Choice) : (c == c) = true := by
  cases c <;> rfl

theorem map_fst_map_set_row (c : Choice) (rows : List (String × Choice)) :
    (rows.map (set_row c)).map Prod.fst = rows.map Prod.fst := by
  simp [List.map_map, set_row, Function.comp_def]

theorem map_fst_map_clearRow (rows : List (String × Choice)) :
    (rows.map clearRow).map Prod.fst = rows.map Prod.fst := by
  simp [List.map_map, Function.comp_def, clearRow_fst]

theorem all_map_set_row_same (c : Choice) (rows : List (String × Choice)) :
    (rows.map (set_row c)).all (fun r => r.2 == c) = true := by
  rw [List.all_map]
  simp [set_row, Function.comp_def, choice_beq_refl]

theorem all_map_set_row_other (c c' : Choice) (h : (c == c') = false)
    (rows : List (String × Choice)) (hne : rows ≠ []) :
    (rows.map (set_row c)).all (fun r => r.2 == c') = false := by
  obtain ⟨r0, t, rfl⟩ := List.exists_cons_of_ne_nil hne
  simp [List.all_cons, set_row, h]

theorem all_map_clearRow (x : Choice) (hx : (Choice.unset == x) = false)
    (rows : List (String × Choice)) (hne : rows ≠ []) :
    (rows.map clearRow).all (fun r => r.2 == x) = false := by
  obtain ⟨r0, t, rfl⟩ := List.exists_cons_of_ne_nil hne
  simp [List.all_cons, clearRow_snd, hx]

namespace CustomCheckbox2

theorem cb_reach_deriv {labels : List String} {s : CbState} (hl : labels ≠ [])
    (h : Reachable labels s) :
    s.updating = false ∧ s.rows.map Prod.fst = labels ∧
      s.guiBox = s.rows.all (fun r => r.2 == Choice.optionA) ∧
      s.customBox = s.rows.all (fun r => r.2 == Choice.optionB) := by
  induction h with
  | init =>
      obtain ⟨l0, ls, rfl⟩ := List.exists_cons_of_ne_nil hl
      refine ⟨rfl, ?_, ?_, ?_⟩
      · simp [initState, initRows, List.map_map, Function.comp_def]
      · simp [initState, initRows, List.all_cons]
      · simp [initState, initRows, List.all_cons]
  | @step s' op hre hvalid ih =>
      obtain ⟨hupd, hlab, hgui, hcus⟩ := ih
      have hne : s'.rows ≠ [] := by
        intro h0
        rw [h0] at hlab
        simp only [List.map_nil] at hlab
        exact hl hlab.symm
      cases op with
      | toggle i c =>
          simp only [applyOp]
          rw [click_radio_eq i c s' hupd]
          refine ⟨rfl, ?_, ?_, ?_⟩
          · rw [applyAt_map_fst (set_row c) (fun r => rfl)]
            exact hlab
          · show (gui_count _ == _) = _
            rw [gui_count_beq_all]
          · show (custom_count _ == _) = _
            rw [custom_count_beq_all]
      | clickGui =>
          simp only [applyOp]
          rw [click_gui_eq s' hupd]
          cases hgb : s'.guiBox with
          | false =>
              rw [if_neg (by simp [hgb])]
              refine ⟨rfl, ?_, ?_, ?_⟩
              · rw [map_fst_map_set_row]
                exact hlab
              · exact (all_map_set_row_same Choice.optionA s'.rows).symm
              · exact (all_map_set_row_other Choice.optionA Choice.optionB rfl
                  s'.rows hne).symm
          | true =>
              rw [if_pos rfl]
              have hallA : s'.rows.all (fun r => r.2 == Choice.optionA) = true := by
                rw [← hgui, hgb]
              have hallB : s'.rows.all (fun r => r.2 == Choice.optionB) = false := by
                obtain ⟨r0, t, hrt⟩ := List.exists_cons_of_ne_nil hne
                rw [hrt] at hallA ⊢
                simp only [List.all_cons, Bool.and_eq_true] at hallA
                have hr0 : r0.2 = Choice.optionA := by
                  have := hallA.1
                  rwa [beq_iff_eq] at this
                simp [List.all_cons, hr0]
              refine ⟨rfl, ?_, ?_, ?_⟩
              · rw [map_fst_map_clearRow]
                exact hlab
              · exact (all_map_clearRow Choice.optionA rfl s'.rows hne).symm
              · rw [hcus, hallB, all_map_clearRow Choice.optionB rfl s'.rows hne]
      | clickCustom =>
          simp only [applyOp]
          rw [click_custom_eq s' hupd]
          cases hgb : s'.customBox with
          | false =>
              rw [if_neg (by simp [hgb])]
              refine ⟨rfl, ?_, ?_, ?_⟩
              · rw [map_fst_map_set_row]
                exact hlab
              · exact (all_map_set_row_other Choice.optionB Choice.optionA rfl
                  s'.rows hne).symm
              · exact (all_map_set_row_same Choice.optionB s'.rows).symm
          | true =>
              rw [if_pos rfl]
              have hallB : s'.rows.all (fun r => r.2 == Choice.optionB) = true := by
                rw [← hcus, hgb]
              have hallA : s'.rows.all (fun r => r.2 == Choice.optionA) = false := by
                obtain ⟨r0, t, hrt⟩ := List.exists_cons_of_ne_nil hne
                rw [hrt] at hallB ⊢
                simp only [List.all_cons, Bool.and_eq_true] at hallB
                have hr0 : r0.2 = Choice.optionB := by
                  have := hallB.1
                  rwa [beq_iff_eq] at this
                simp [List.all_cons, hr0]
              refine ⟨rfl, ?_, ?_, ?_⟩
              · rw [map_fst_map_clearRow]
                exact hlab
              · rw [hgui, hallA, all_map_clearRow Choice.optionA rfl s'.rows hne]
              · exact (all_map_clearRow Choice.optionB rfl s'.rows hne).symm
      | clearAll =>
          refine ⟨rfl, ?_, ?_, ?_⟩
          · show (s'.rows.map clearRow).map Prod.fst = labels
            rw [map_fst_map_clearRow]
            exact hlab
          · exact (all_map_clearRow Choice.optionA rfl s'.rows hne).symm
          · exact (all_map_clearRow Choice.optionB rfl s'.rows hne).symm

end CustomCheckbox2

namespace StringPopup

theorem pop_reach_invariant {labels : List String} {s : PopState}
    (h : Reachable labels s) : (s.guiBox && s.customBox) = false := by
  induction h with
  | init => rfl
  | @step s' op hre hvalid ih =>
      cases op with
      | toggle i c => exact ih
      | clickGui =>
          show ((click_gui_checkbox s').guiBox && (click_gui_checkbox s').customBox) = false
          unfold click_gui_checkbox on_gui_checkbox_clicked
          cases hgb : s'.guiBox <;> simp [hgb]
      | clickCustom =>
          show ((click_custom_checkbox s').guiBox && (click_custom_checkbox s').customBox) = false
          unfold click_custom_checkbox on_custom_checkbox_clicked
          cases hgb : s'.customBox <;> simp [hgb]
      | clearAll => rfl

end StringPopup

/-- C3: in every state of the checkbox variants (`Custom_checkbox_2.py`
and `string_popup_dynamic_widget.py`) reachable by any sequence of
`toggleItem`, `activateMaster` and `clearAll` gestures, for any item
list, at most one of the two master checkboxes is checked: the GUI
and Custom header boxes are never both `On`. -/
theorem masters_mutually_exclusive :
    (∀ (labels : List String) (s : CustomCheckbox2.CbState),
        CustomCheckbox2.Reachable labels s → (s.guiBox && s.customBox) = false) ∧
    (∀ (labels : List String) (t : StringPopup.PopState),
        StringPopup.Reachable labels t → (t.guiBox && t.customBox) = false) :=
  ⟨fun _ _ h => (CustomCheckbox2.cb_reach_invariant h).2,
   fun _ _ h => StringPopup.pop_reach_invariant h⟩

/-- Witness for C3 at the concrete reachable state produced by the
gesture sequence [clickGui] on the one-item widget. -/
theorem masters_mutually_exclusive_witness :
    ((CustomCheckbox2.applyOp CustomCheckbox2.Op.clickGui
        (CustomCheckbox2.initState ["a"])).guiBox &&
      (CustomCheckbox2.applyOp CustomCheckbox2.Op.clickGui
        (CustomCheckbox2.initState ["a"])).customBox) = false ∧
    ((StringPopup.applyOp StringPopup.Op.clickGui
        (StringPopup.clear_state ["a"])).guiBox &&
      (StringPopup.applyOp StringPopup.Op.clickGui
        (StringPopup.clear_state ["a"])).customBox) = false :=
  ⟨masters_mutually_exclusive.1 ["a"] _
      (CustomCheckbox2.Reachable.step CustomCheckbox2.Op.clickGui
        CustomCheckbox2.Reachable.init trivial),
   masters_mutually_exclusive.2 ["a"] _
      (StringPopup.Reachable.step StringPopup.Op.clickGui
        StringPopup.Reachable.init trivial)⟩

/-- C2 (amended: nonempty item list): in the checkbox variant
`Custom_checkbox_2.py`, in every reachable state — in particular
after every `toggleItem` and every `activateMaster` gesture — each
header checkbox equals the derivation rule "checked iff every row
selects my column". -/
theorem checkbox_master_derivation (labels : List String)
    (s : CustomCheckbox2.CbState) (hl : labels ≠ [])
    (h : CustomCheckbox2.Reachable labels s) :
    s.guiBox = s.rows.all (fun r => r.2 == Choice.optionA) ∧
    s.customBox = s.rows.all (fun r => r.2 == Choice.optionB) :=
  ⟨(CustomCheckbox2.cb_reach_deriv hl h).2.2.1,
   (CustomCheckbox2.cb_reach_deriv hl h).2.2.2⟩

/-- Witness for C2 at the concrete reachable state produced by the
gesture sequence [toggle row 0 to GUI] on the one-item widget. -/
theorem checkbox_master_derivation_witness :
    (CustomCheckbox2.applyOp (CustomCheckbox2.Op.toggle 0 Choice.optionA)
        (CustomCheckbox2.initState ["a"])).guiBox =
      (CustomCheckbox2.applyOp (CustomCheckbox2.Op.toggle 0 Choice.optionA)
        (CustomCheckbox2.initState ["a"])).rows.all
          (fun r => r.2 == Choice.optionA) ∧
    (CustomCheckbox2.applyOp (CustomCheckbox2.Op.toggle 0 Choice.optionA)
        (CustomCheckbox2.initState ["a"])).customBox =
      (CustomCheckbox2.applyOp (CustomCheckbox2.Op.toggle 0 Choice.optionA)
        (CustomCheckbox2.initState ["a"])).rows.all
          (fun r => r.2 == Choice.optionB) :=
  checkbox_master_derivation ["a"] _ (List.cons_ne_nil "a" [])
    (CustomCheckbox2.Reachable.step (CustomCheckbox2.Op.toggle 0 Choice.optionA)
      CustomCheckbox2.Reachable.init
      ⟨Nat.zero_lt_one, fun hc => Choice.noConfusion hc⟩)

/-- Counterexample for C2 as stated: on the empty item list, after
the `activateMaster(GUI)` gesture the Custom header box is unchecked
although every row (vacuously) selects Custom, so the derivation rule
fails. -/
theorem checkbox_master_derivation_empty_fails :
    (CustomCheckbox2.click_gui_checkbox (CustomCheckbox2.initState [])).customBox ≠
      (CustomCheckbox2.click_gui_checkbox
        (CustomCheckbox2.initState [])).rows.all (fun r => r.2 == Choice.optionB) := by
  decide

/-- C1 (amended: item list of size N ≥ 1): on a nonempty row list in
which every choice is still unset, the validating OK handler fails
and the validation failure carries exactly all input labels, in the
original input order. -/
theorem commit_all_unset_reports_all_labels (rows : List (String × Choice))
    (hne : rows ≠ []) (h : ∀ r ∈ rows, r.2 = Choice.unset) :
    on_ok_outcome rows = Except.error (rows.map Prod.fst) := by
  obtain ⟨r0, t, rfl⟩ := List.exists_cons_of_ne_nil hne
  have hu := unselected_items_of_all_unset _ h
  simp only [on_ok_outcome, hu, List.map_cons, List.isEmpty_cons]
  rfl

/-- Witness for C1 on the concrete fully-unset two-item widget. -/
theorem commit_all_unset_reports_all_labels_witness :
    on_ok_outcome [("a", Choice.unset), ("b", Choice.unset)] =
      Except.error ["a", "b"] :=
  commit_all_unset_reports_all_labels _ (List.cons_ne_nil _ _) (by decide)

/-- Counterexample for C1 as stated: on the empty item list every
choice is vacuously unset, yet the OK handler succeeds with the empty
result instead of failing with a validation error. -/
theorem commit_empty_list_succeeds :
    on_ok_outcome ([] : List (String × Choice)) = Except.ok [] ∧
    on_ok_outcome ([] : List (String × Choice)) ≠
      Except.error (([] : List (String × Choice)).map Prod.fst) := by
  constructor
  · rfl
  · intro hcontra
    exact Except.noConfusion hcontra

/-- C9: `dynamic_string_widget.get_result` pairs each label with
"GUI" exactly when the row's choice is OptionA and with "Custom" in
every other case, including unset rows; its OK handler emits this
result with no validation, so a never-classified item is reported as
"Custom". -/
theorem result_renders_A_as_GUI_else_Custom :
    ∀ (rows : List (String × Choice)) (i : Nat),
      (PlainWidget.on_ok_result rows)[i]? =
        (rows[i]?).map
          (fun r => (r.1, if r.2 = Choice.optionA then "GUI" else "Custom")) := by
  intro rows i
  unfold PlainWidget.on_ok_result
  rw [get_result_eq_map, List.getElem?_map]
  cases h : rows[i]? with
  | none => rfl
  | some r =>
      obtain ⟨l, c⟩ := r
      cases c <;> rfl

/-- C10: when the validating OK handler finds an unset row, it leaves
the dialog state untouched and still editing, and reports the
incomplete labels. -/
theorem failed_commit_leaves_state_editing (s : GateState)
    (hph : s.phase = Phase.editing)
    (hun : ∃ r ∈ s.rows, r.2 = Choice.unset) :
    on_ok_step s = (s, Except.error (unselected_items s.rows)) ∧
    (on_ok_step s).1.phase = Phase.editing := by
  obtain ⟨r, hr, hc⟩ := hun
  have hne := unselected_items_ne_nil s.rows r hr hc
  have hie : (unselected_items s.rows).isEmpty = false := by
    cases hu : unselected_items s.rows with
    | nil => exact absurd hu hne
    | cons a t => rfl
  have hstep : on_ok_step s = (s, Except.error (unselected_items s.rows)) := by
    unfold on_ok_step
    rw [if_neg (by simp [hie])]
  exact ⟨hstep, by rw [hstep]; exact hph⟩

/-- Witness for C10 on a concrete one-item dialog with an unset row. -/
theorem failed_commit_leaves_state_editing_witness :
    on_ok_step ⟨[("a", Choice.unset)], Phase.editing⟩ =
      (⟨[("a", Choice.unset)], Phase.editing⟩,
        Except.error (unselected_items [("a", Choice.unset)])) ∧
    (on_ok_step ⟨[("a", Choice.unset)], Phase.editing⟩).1.phase = Phase.editing :=
  failed_commit_leaves_state_editing _ rfl (by decide)

theorem unselected_items_map_set_row (c : Choice)
    (hc : (checkedId c == -1) = false) (rows : List (String × Choice)) :
    unselected_items (rows.map (set_row c)) = [] := by
  induction rows with
  | nil => rfl
  | cons r t ih => simp [unselected_items, set_row, hc, ih]

theorem are_all_gui_initRows_cons (l : String) (ls : List String) :
    SelectAllBox.are_all_gui_selected (initRows (l :: ls)) = false := by
  simp [SelectAllBox.are_all_gui_selected, initRows, List.all_cons, checkedId]

/-- C5: for a nonempty item list, the `activateMaster(GUI)` gesture
taken from the clearAll state selects the GUI option in every row and
leaves no incomplete item, in both the checkbox variant
(`Custom_checkbox_2.py`) and the button variant
(`select_all_custom_code_box.py`). -/
theorem master_gui_from_clear_selects_all (labels : List String) (hl : labels ≠ []) :
    ((CustomCheckbox2.click_gui_checkbox
        (CustomCheckbox2.clear_all (CustomCheckbox2.initState labels))).rows.all
      (fun r => r.2 == Choice.optionA)) = true ∧
    unselected_items (CustomCheckbox2.click_gui_checkbox
        (CustomCheckbox2.clear_all (CustomCheckbox2.initState labels))).rows = [] ∧
    ((SelectAllBox.select_all_gui (initRows labels)).all
      (fun r => r.2 == Choice.optionA)) = true ∧
    unselected_items (SelectAllBox.select_all_gui (initRows labels)) = [] := by
  have hclear : CustomCheckbox2.clear_all (CustomCheckbox2.initState labels) =
      { rows := (initRows labels).map clearRow, guiBox := false,
        customBox := false, updating := false } := rfl
  have hclick := CustomCheckbox2.click_gui_eq
    (CustomCheckbox2.clear_all (CustomCheckbox2.initState labels)) rfl
  rw [hclear] at hclick
  rw [if_neg Bool.false_ne_true] at hclick
  obtain ⟨l0, ls, rfl⟩ := List.exists_cons_of_ne_nil hl
  refine ⟨?_, ?_, ?_, ?_⟩
  · rw [hclear, hclick]
    exact all_map_set_row_same Choice.optionA _
  · rw [hclear, hclick]
    exact unselected_items_map_set_row Choice.optionA rfl _
  · unfold SelectAllBox.select_all_gui
    rw [if_neg (by rw [are_all_gui_initRows_cons]; exact Bool.false_ne_true)]
    exact all_map_set_row_same Choice.optionA _
  · unfold SelectAllBox.select_all_gui
    rw [if_neg (by rw [are_all_gui_initRows_cons]; exact Bool.false_ne_true)]
    exact unselected_items_map_set_row Choice.optionA rfl _

/-- Witness for C5 on the concrete one-item widget. -/
theorem master_gui_from_clear_selects_all_witness :
    ((CustomCheckbox2.click_gui_checkbox
        (CustomCheckbox2.clear_all (CustomCheckbox2.initState ["a"]))).rows.all
      (fun r => r.2 == Choice.optionA)) = true ∧
    unselected_items (CustomCheckbox2.click_gui_checkbox
        (CustomCheckbox2.clear_all (CustomCheckbox2.initState ["a"]))).rows = [] ∧
    ((SelectAllBox.select_all_gui (initRows ["a"])).all
      (fun r => r.2 == Choice.optionA)) = true ∧
    unselected_items (SelectAllBox.select_all_gui (initRows ["a"])) = [] :=
  master_gui_from_clear_selects_all ["a"] (List.cons_ne_nil _ _)

theorem clear_select_rows_A (rows : List (String × Choice)) :
    SelectAllBox.clear_all_selections (rows.map (set_row Choice.optionA)) =
      rows.map (fun r => (r.1, Choice.unset)) := by
  unfold SelectAllBox.clear_all_selections
  rw [List.map_map]
  exact List.map_congr_left (fun r _ => rfl)

theorem are_all_gui_select_rows_A (rows : List (String × Choice)) :
    SelectAllBox.are_all_gui_selected (rows.map (set_row Choice.optionA)) = true := by
  unfold SelectAllBox.are_all_gui_selected
  rw [List.all_map]
  exact List.all_eq_true.mpr (fun r _ => rfl)

/-- C6 (amended: starting from the clearAll state): two consecutive
`activateMaster(GUI)` gestures on the all-unset widget return it to
the clearAll state under the toggle-to-clear policy
(`select_all_custom_code_box.py`) and set every row to Custom under
the toggle-to-flip policy (`string_popup_dynamic_widget.py`). -/
theorem master_gui_twice_from_clear (labels : List String) :
    SelectAllBox.select_all_gui (SelectAllBox.select_all_gui (initRows labels)) =
      initRows labels ∧
    (StringPopup.click_gui_checkbox (StringPopup.click_gui_checkbox
        (StringPopup.clear_state labels))).rows =
      labels.map (fun l => (l, Choice.optionB)) := by
  constructor
  · cases labels with
    | nil => rfl
    | cons l0 ls =>
        have h1 : SelectAllBox.select_all_gui (initRows (l0 :: ls)) =
            (initRows (l0 :: ls)).map (set_row Choice.optionA) := by
          unfold SelectAllBox.select_all_gui
          rw [if_neg (by rw [are_all_gui_initRows_cons]; exact Bool.false_ne_true)]
          rfl
        rw [h1]
        unfold SelectAllBox.select_all_gui
        rw [if_pos (are_all_gui_select_rows_A _), clear_select_rows_A]
        simp [initRows, List.map_map]
  · have h1 : StringPopup.click_gui_checkbox (StringPopup.clear_state labels) =
        { rows := (initRows labels).map (set_row Choice.optionA),
          guiBox := true, customBox := false } := rfl
    rw [h1]
    have h2 : StringPopup.click_gui_checkbox
        ({ rows := (initRows labels).map (set_row Choice.optionA),
           guiBox := true, customBox := false } : StringPopup.PopState) =
        { rows := ((initRows labels).map (set_row Choice.optionA)).map
            (set_row Choice.optionB),
          guiBox := false, customBox := true } := rfl
    rw [h2]
    simp [initRows, List.map_map, set_row, Function.comp_def]

/-- Counterexample for C6 as stated: starting instead from the state
in which the single item already holds GUI, two consecutive
`activateMaster(GUI)` gestures under the toggle-to-clear policy leave
the item on GUI, not unset, so the result is not the clearAll state. -/
theorem master_gui_twice_from_all_A_fails :
    (SelectAllBox.select_all_gui
        (SelectAllBox.select_all_gui [("x", Choice.optionA)])).map Prod.snd =
      [Choice.optionA] ∧ Choice.optionA ≠ Choice.unset :=
  ⟨rfl, fun h => Choice.noConfusion h⟩

theorem string_data_append (s t : String) : (s ++ t).data = s.data ++ t.data := by
  cases s
  cases t
  rfl

theorem pref_at_append (n t : List Char) : pref_at n (n ++ t) = true := by
  induction n with
  | nil => rfl
  | cons a as ih => simp [pref_at, ih]

theorem sub_at_of_pref (n h : List Char) (hp : pref_at n h = true) :
    sub_at n h = true := by
  cases h with
  | nil => exact hp
  | cons b bs => simp [sub_at, hp]

theorem sub_at_append_left (n : List Char) :
    ∀ (a h : List Char), sub_at n h = true → sub_at n (a ++ h) = true := by
  intro a
  induction a with
  | nil => intro h hs; exact hs
  | cons x xs ih =>
      intro h hs
      show sub_at n (x :: (xs ++ h)) = true
      unfold sub_at
      rw [Bool.or_eq_true]
      exact Or.inr (ih h hs)

theorem mem_sub_join (l : String) (u : List String) (hl : l ∈ u) :
    sub_at l.data (join_comma u).data = true := by
  induction u with
  | nil => cases hl
  | cons x xs ih =>
      rcases List.mem_cons.mp hl with rfl | hmem
      · cases xs with
        | nil =>
            apply sub_at_of_pref
            have := pref_at_append l.data []
            rwa [List.append_nil] at this
        | cons y ys =>
            apply sub_at_of_pref
            show pref_at l.data (l ++ ", " ++ join_comma (y :: ys)).data = true
            rw [string_data_append, string_data_append, List.append_assoc]
            exact pref_at_append _ _
      · cases xs with
        | nil => cases hmem
        | cons y ys =>
            have hsub := ih hmem
            show sub_at l.data (x ++ ", " ++ join_comma (y :: ys)).data = true
            rw [string_data_append]
            exact sub_at_append_left _ _ _ hsub

/-- C7 (amended: only the enhanced table variant
`design_dynamic_custom_table_3.py` presents the missing labels): when
its OK handler fails validation, every missing label occurs verbatim
in the warning text it displays; the remaining variants compute the
same ordered list of missing labels but display a fixed sentence
without them. -/
theorem table3_warning_lists_missing_labels (rows : List (String × Choice))
    (l : String) (hl : l ∈ unselected_items rows) :
    sub_at l.data (table3_warning_text (unselected_items rows)).data = true := by
  unfold table3_warning_text
  rw [string_data_append]
  exact sub_at_append_left _ _ _ (mem_sub_join l _ hl)

/-- Witness for C7 on a concrete one-item dialog. -/
theorem table3_warning_lists_missing_labels_witness :
    sub_at "a".data
      (table3_warning_text (unselected_items [("a", Choice.unset)])).data = true :=
  table3_warning_lists_missing_labels [("a", Choice.unset)] "a" (by decide)

/-- Counterexample for C7 as stated: the warning text of
`Custom_checkbox_2.py` (shared verbatim by the select-all button,
plain table and string-popup variants) is a fixed sentence; with the
single unclassified item "getUserData" the text shown to the user
does not contain that missing label. -/
theorem generic_warning_omits_labels :
    sub_at "getUserData".data
      (checkbox2_warning_text
        (unselected_items [("getUserData", Choice.unset)])).data = false := by
  decide

namespace CustomCheckbox2

theorem click_gui_direct_eq (s : CbState) (h : s.updating = false) :
    click_gui_direct s =
      if s.guiBox then
        { s with rows := s.rows.map clearRow, guiBox := false, updating := false }
      else
        { s with rows := s.rows.map (set_row Choice.optionA), guiBox := true,
                 customBox := false, updating := false } := by
  obtain ⟨rows, gui, custom, upd⟩ := s
  simp only at h
  subst h
  cases gui with
  | false =>
      show on_gui_checkbox_clicked_direct ⟨rows, true, custom, false⟩ = _
      unfold on_gui_checkbox_clicked_direct
      simp only [Bool.not_false, if_neg Bool.false_ne_true, if_pos rfl]
      show ({ rows := applyRange (set_row Choice.optionA) rows 0 rows.length,
              guiBox := true, customBox := false, updating := false } : CbState) = _
      rw [applyRange_full]
  | true =>
      show on_gui_checkbox_clicked_direct ⟨rows, false, custom, false⟩ = _
      unfold on_gui_checkbox_clicked_direct
      simp only [Bool.not_true, if_neg Bool.false_ne_true]
      show ({ rows := applyRange clearRow rows 0 rows.length,
              guiBox := false, customBox := custom, updating := false } : CbState) = _
      rw [applyRange_full]
      simp

theorem click_custom_direct_eq (s : CbState) (h : s.updating = false) :
    click_custom_direct s =
      if s.customBox then
        { s with rows := s.rows.map clearRow, customBox := false, updating := false }
      else
        { s with rows := s.rows.map (set_row Choice.optionB), customBox := true,
                 guiBox := false, updating := false } := by
  obtain ⟨rows, gui, custom, upd⟩ := s
  simp only at h
  subst h
  cases custom with
  | false =>
      show on_custom_checkbox_clicked_direct ⟨rows, gui, true, false⟩ = _
      unfold on_custom_checkbox_clicked_direct
      simp only [Bool.not_false, if_neg Bool.false_ne_true, if_pos rfl]
      show ({ rows := applyRange (set_row Choice.optionB) rows 0 rows.length,
              guiBox := false, customBox := true, updating := false } : CbState) = _
      rw [applyRange_full]
  | true =>
      show on_custom_checkbox_clicked_direct ⟨rows, gui, false, false⟩ = _
      unfold on_custom_checkbox_clicked_direct
      simp only [Bool.not_true, if_neg Bool.false_ne_true]
      show ({ rows := applyRange clearRow rows 0 rows.length,
              guiBox := gui, customBox := false, updating := false } : CbState) = _
      rw [applyRange_full]
      simp

end CustomCheckbox2

/-- C8: starting a master-checkbox gesture with the guard flag down,
every synchronizer operation triggered synchronously inside the
gesture (each per-row `setChecked` fires `toggled`, whose slot
`on_radio_button_changed` would recompute the master states) is
suppressed by the `updating_checkboxes` guard, so the gesture equals
the single coherent transition with no nested handler at all. -/
theorem reentrancy_guard_single_transition (s : CustomCheckbox2.CbState)
    (h : s.updating = false) :
    (∀ t : CustomCheckbox2.CbState, t.updating = true →
        CustomCheckbox2.on_radio_button_changed t = t) ∧
    CustomCheckbox2.click_gui_checkbox s = CustomCheckbox2.click_gui_direct s ∧
    CustomCheckbox2.click_custom_checkbox s = CustomCheckbox2.click_custom_direct s := by
  refine ⟨fun t ht => CustomCheckbox2.on_radio_suppressed t ht, ?_, ?_⟩
  · rw [CustomCheckbox2.click_gui_eq s h, CustomCheckbox2.click_gui_direct_eq s h]
  · rw [CustomCheckbox2.click_custom_eq s h, CustomCheckbox2.click_custom_direct_eq s h]

/-- Witness for C8 on the concrete one-item widget in its initial
state. -/
theorem reentrancy_guard_single_transition_witness :
    CustomCheckbox2.click_gui_checkbox (CustomCheckbox2.initState ["a"]) =
      CustomCheckbox2.click_gui_direct (CustomCheckbox2.initState ["a"]) :=
  (reentrancy_guard_single_transition (CustomCheckbox2.initState ["a"]) rfl).2.1

theorem applyAt_getElem? (g : String × Choice → String × Choice) :
    ∀ (rows : List (String × Choice)) (k i : Nat),
      (CustomCheckbox2.applyAt g rows k)[i]? =
        if k == i then (rows[i]?).map g else rows[i]? := by
  intro rows
  induction rows with
  | nil =>
      intro k i
      show (([] : List (String × Choice)))[i]? = _
      cases hk : (k == i) <;> simp [hk]
  | cons r rest ih =>
      intro k i
      cases k with
      | zero =>
          cases i with
          | zero => simp [CustomCheckbox2.applyAt]
          | succ i =>
              simp only [CustomCheckbox2.applyAt, List.getElem?_cons_succ]
              rw [if_neg (by simp)]
      | succ k =>
          cases i with
          | zero =>
              simp only [CustomCheckbox2.applyAt, List.getElem?_cons_zero]
              rw [if_neg (by simp)]
          | succ i =>
              simp only [CustomCheckbox2.applyAt, List.getElem?_cons_succ]
              rw [ih k i]
              by_cases hki : k = i
              · subst hki
                rw [if_pos (by simp), if_pos (by simp)]
              · rw [if_neg (by simp [hki]), if_neg (by simp [hki])]

theorem last_set_append_single (i j : Nat) (c : Choice) (ops : List (Nat × Choice)) :
    TableWidget.last_set i (ops ++ [(j, c)]) =
      if j == i then some c else TableWidget.last_set i ops := by
  unfold TableWidget.last_set
  rw [List.reverse_append]
  rfl

theorem apply_toggles_getElem? (ops : List (Nat × Choice)) (labels : List String)
    (i : Nat) :
    (TableWidget.apply_toggles ops (initRows labels))[i]? =
      (labels[i]?).map
        (fun l => (l, (TableWidget.last_set i ops).getD Choice.unset)) := by
  induction ops using List.reverseRecOn with
  | nil =>
      show (initRows labels)[i]? = _
      unfold initRows
      rw [List.getElem?_map]
      rfl
  | append_singleton ops op ih =>
      obtain ⟨j, c⟩ := op
      have hfold : TableWidget.apply_toggles (ops ++ [(j, c)]) (initRows labels) =
          TableWidget.apply_toggle
            (TableWidget.apply_toggles ops (initRows labels)) (j, c) := by
        unfold TableWidget.apply_toggles
        rw [List.foldl_append]
        rfl
      rw [hfold]
      unfold TableWidget.apply_toggle
      rw [applyAt_getElem?, last_set_append_single]
      cases hji : (j == i) with
      | true =>
          rw [if_pos (show (true : Bool) = true from rfl),
            if_pos (show (true : Bool) = true from rfl), ih, Option.map_map]
          cases hlab : labels[i]? <;> rfl
      | false =>
          rw [if_neg Bool.false_ne_true, if_neg Bool.false_ne_true, ih]

theorem first_set_mem (i : Nat) (c : Choice) :
    ∀ ops : List (Nat × Choice),
      TableWidget.first_set i ops = some c → (i, c) ∈ ops := by
  intro ops
  induction ops with
  | nil => intro h; cases h
  | cons op rest ih =>
      obtain ⟨j, c'⟩ := op
      intro h
      unfold TableWidget.first_set at h
      by_cases hji : (j == i) = true
      · rw [if_pos hji] at h
        have hi : j = i := by rwa [beq_iff_eq] at hji
        have hc : c' = c := by injection h
        subst hi
        subst hc
        exact List.mem_cons_self _ _
      · rw [if_neg hji] at h
        exact List.mem_cons_of_mem _ (ih h)

theorem last_set_mem (i : Nat) (c : Choice) (ops : List (Nat × Choice))
    (h : TableWidget.last_set i ops = some c) : (i, c) ∈ ops :=
  List.mem_reverse.mp (first_set_mem i c ops.reverse h)

theorem expected_from_getElem? (ops : List (Nat × Choice)) :
    ∀ (labels : List String) (k i : Nat),
      (TableWidget.expected_from ops k labels)[i]? =
        (labels[i]?).map
          (fun l => (l,
            if TableWidget.last_set (k + i) ops = some Choice.optionA
            then "GUI" else "Custom")) := by
  intro labels
  induction labels with
  | nil => intro k i; rfl
  | cons l rest ih =>
      intro k i
      cases i with
      | zero => simp [TableWidget.expected_from]
      | succ i =>
          simp only [TableWidget.expected_from, List.getElem?_cons_succ]
          rw [ih (k + 1) i, show k + 1 + i = k + (i + 1) from by omega]

theorem get_result_getElem? (rows : List (String × Choice)) (i : Nat) :
    (get_result rows)[i]? =
      (rows[i]?).map
        (fun r => (r.1, if checkedId r.2 == 0 then "GUI" else "Custom")) := by
  rw [get_result_eq_map, List.getElem?_map]

/-- C4: in `design_dynamic_custom_table.py`, after any sequence of
`toggleItem` gestures that assigns every row (each gesture checks GUI
or Custom, never unsets), the OK handler succeeds and emits the
labels in original input order, each paired with the rendering of its
last-set choice as the literal string "GUI" or "Custom". -/
theorem commit_after_toggles_returns_last_choices (labels : List String)
    (ops : List (Nat × Choice))
    (hall : ∀ i ∈ List.range labels.length,
      (TableWidget.last_set i ops).isSome = true)
    (hops : ∀ op ∈ ops, op.2 ≠ Choice.unset) :
    on_ok_outcome (TableWidget.apply_toggles ops (initRows labels)) =
      Except.ok (TableWidget.expected_result labels ops) := by
  have hpt : ∀ i : Nat,
      (TableWidget.apply_toggles ops (initRows labels))[i]? =
        (labels[i]?).map
          (fun l => (l, (TableWidget.last_set i ops).getD Choice.unset)) :=
    fun i => apply_toggles_getElem? ops labels i
  have hnu : ∀ r ∈ TableWidget.apply_toggles ops (initRows labels),
      r.2 ≠ Choice.unset := by
    intro r hr
    obtain ⟨i, hi⟩ := exists_getElem?_of_mem _ r hr
    rw [hpt i] at hi
    cases hlab : labels[i]? with
    | none => rw [hlab] at hi; cases hi
    | some l =>
        rw [hlab] at hi
        have hr2 : r = (l, (TableWidget.last_set i ops).getD Choice.unset) := by
          injection hi with h'
          exact h'.symm
        have hlt : i < labels.length := lt_length_of_getElem?_some labels i l hlab
        obtain ⟨c, hc⟩ := Option.isSome_iff_exists.mp (hall i (List.mem_range.mpr hlt))
        have hcne := hops (i, c) (last_set_mem i c ops hc)
        rw [hr2, hc]
        exact hcne
  have hu : unselected_items (TableWidget.apply_toggles ops (initRows labels)) = [] :=
    unselected_items_eq_nil _ hnu
  have hres : get_result (TableWidget.apply_toggles ops (initRows labels)) =
      TableWidget.expected_result labels ops := by
    apply List.ext_getElem?
    intro i
    rw [get_result_getElem?, hpt i]
    unfold TableWidget.expected_result
    rw [expected_from_getElem? ops labels 0 i, Option.map_map,
      show 0 + i = i from Nat.zero_add i]
    cases hlab : labels[i]? with
    | none => rfl
    | some l =>
        cases hls : TableWidget.last_set i ops with
        | none => simp [hls, Function.comp_def, checkedId]
        | some c =>
            cases c <;> simp [hls, Function.comp_def, checkedId]
  unfold on_ok_outcome
  rw [hu]
  show Except.ok (get_result _) = _
  rw [hres]

/-- Witness for C4 on the two-item widget with the gesture sequence
[toggle row 0 to GUI, toggle row 1 to Custom]. -/
theorem commit_after_toggles_returns_last_choices_witness :
    on_ok_outcome (TableWidget.apply_toggles
        [(0, Choice.optionA), (1, Choice.optionB)] (initRows ["a", "b"])) =
      Except.ok (TableWidget.expected_result ["a", "b"]
        [(0, Choice.optionA), (1, Choice.optionB)]) :=
  commit_after_toggles_returns_last_choices ["a", "b"]
    [(0, Choice.optionA), (1, Choice.optionB)] (by decide) (by decide)
